import Mathlib

/-!
Verification of the RP_SL1_Chat backend core against its specification.

This file gives a shallow embedding of the three claim-relevant modules:

* `tool-discovery.service.ts` (the Tool Catalog Cache): `CacheState`,
  `syncTools`, `syncToolsWithRetry`, `loadFallbackTools`, `getToolsForAI`,
  `getServiceStatus`, `shutdown`, and the schema normalization
  `normalizeToolParameters`.
* `mcp.service.ts` / `mcp-http.service.ts`: `MCPService.executeTool` and
  `MCPHttpService.executeTool` modelled over explicit outcome parameters
  for the awaited I/O.
* `chat.service.ts` / `zai.service.ts`: `validateTopic`, the entity
  resolver `resolveDeviceIdentifiers` with its three extractors, and the
  `processMessage` round loop.

JavaScript dynamic values are modelled by an inductive `Json` type
(`undefined` is folded into `Json.null`; both are falsy and both read as a
missing property).  Timestamps are naturals counting milliseconds; awaited
I/O is passed in as explicit outcome parameters (`Except String _` models
a promise that either resolves or rejects with an error message).
-/

/-- JavaScript runtime values, as far as the services inspect them. -/
inductive Json where
  | null
  | bool (b : Bool)
  | num (n : Int)
  | str (s : String)
  | arr (elems : List Json)
  | obj (fields : List (String × Json))

/-- JavaScript truthiness (`undefined`/`null`, `false`, `0`, `""` are falsy;
    arrays and objects are always truthy). -/
def jsTruthy : Json → Bool
  | .null => false
  | .bool b => b
  | .num n => n != 0
  | .str s => s != ""
  | .arr _ => true
  | .obj _ => true

/-- `typeof v === 'object'` (true for objects, arrays and `null`). -/
def jsTypeofObject : Json → Bool
  | .null => true
  | .arr _ => true
  | .obj _ => true
  | _ => false

/-- The own enumerable string-keyed fields of a value: an object's fields,
    an array's index keys (as produced by spread / `Object.keys`), nothing
    for primitives. -/
def jsObjFields : Json → List (String × Json)
  | .obj fs => fs
  | .arr xs => xs.enum.map fun p => (toString p.1, p.2)
  | _ => []

/-- Property read `v[k]`, `none` standing for `undefined`. -/
def jsGet (j : Json) (k : String) : Option Json :=
  ((jsObjFields j).find? fun kv => kv.1 == k).map fun kv => kv.2

/-- Property read defaulted to `undefined` (modelled as `Json.null`). -/
def jsGetD (j : Json) (k : String) : Json :=
  (jsGet j k).getD Json.null

/-- `k in v`. -/
def jsHasKey (j : Json) (k : String) : Bool :=
  ((jsObjFields j).find? fun kv => kv.1 == k).isSome

/-- Replace key `k` in place if present (keeping field order), else append
    it — the semantics of `{ ...v, k: val }` for the key `k`. -/
def setFieldIn : List (String × Json) → String → Json → List (String × Json)
  | [], k, v => [(k, v)]
  | (k', v') :: rest, k, v =>
      if k' == k then (k, v) :: rest else (k', v') :: setFieldIn rest k v

/-- `{ ...j, k: v }`: spread the fields of `j` and set key `k`. -/
def jsSpreadSet (j : Json) (k : String) (v : Json) : Json :=
  Json.obj (setFieldIn (jsObjFields j) k v)

mutual

/-- Structural equality on `Json`; models `===` at the primitive types the
    services compare (ids are numbers or strings in practice). -/
def jsonBeq : Json → Json → Bool
  | .null, .null => true
  | .bool a, .bool b => a == b
  | .num a, .num b => a == b
  | .str a, .str b => a == b
  | .arr a, .arr b => jsonListBeq a b
  | .obj a, .obj b => jsonFieldsBeq a b
  | _, _ => false

def jsonListBeq : List Json → List Json → Bool
  | [], [] => true
  | x :: xs, y :: ys => jsonBeq x y && jsonListBeq xs ys
  | _, _ => false

def jsonFieldsBeq : List (String × Json) → List (String × Json) → Bool
  | [], [] => true
  | (k, v) :: xs, (k', v') :: ys => k == k' && jsonBeq v v' && jsonFieldsBeq xs ys
  | _, _ => false

end

/-- String coercion as used in template literals (`${v}`), for the values
    that actually occur there (names, ids, addresses). -/
def jsToString : Json → String
  | .null => "null"
  | .bool b => if b then "true" else "false"
  | .num n => toString n
  | .str s => s
  | .arr _ => ""
  | .obj _ => "[object Object]"

/-! ## Tool Catalog Cache (`tool-discovery.service.ts`) -/

/-- A tool definition as served by the MCP provider (`MCPTool`). -/
structure MCPTool where
  name : String
  description : String
  inputSchema : Json

/-- The normalized `parameters` object of a cached tool: the shape
    `{type: "object", properties, required}` built by
    `normalizeToolParameters`. -/
structure NormalizedParams where
  schemaType : String
  properties : List (String × Json)
  required : List Json

/-- The `function` payload of a `CachedTool`. -/
structure ToolFunctionDef where
  name : String
  description : String
  parameters : NormalizedParams

/-- One entry of the cached catalog (`CachedTool`): `{type: "function",
    function: {name, description, parameters}}`. -/
structure CachedTool where
  ctype : String
  func : ToolFunctionDef

/-- `ToolDiscoveryService.normalizeToolParameters`: fix up one property
    value.  Non-object and `null` property values are replaced wholesale;
    object-typed values lacking a truthy `type` get `type: "string"` via
    spread. -/
def fixupProperty (key : String) (prop : Json) : Json :=
  if !jsTypeofObject prop || prop matches .null then
    Json.obj [("type", Json.str "string"),
              ("description", Json.str ("Property " ++ key))]
  else if !jsTruthy (jsGetD prop "type") then
    jsSpreadSet prop "type" (Json.str "string")
  else
    prop

/-- `ToolDiscoveryService.normalizeToolParameters` (lines 310-366): a falsy
    schema gives the empty object shape; otherwise `properties` is copied
    when it is a truthy object (else `{}`), `required` is copied when it is
    an array (else `[]`), and each property is fixed up.  The source's
    `catch` branch is unreachable here because every step is total. -/
def normalizeToolParameters (inputSchema : Json) : NormalizedParams :=
  if !jsTruthy inputSchema then
    ⟨"object", [], []⟩
  else
    let propsVal := jsGetD inputSchema "properties"
    let props :=
      if jsTruthy propsVal && jsTypeofObject propsVal then jsObjFields propsVal
      else []
    let req :=
      match jsGetD inputSchema "required" with
      | .arr xs => xs
      | _ => []
    ⟨"object", props.map fun kv => (kv.1, fixupProperty kv.1 kv.2), req⟩

/-- `ToolDiscoveryService.transformMcpToolToAIFormat`. -/
def transformMcpToolToAIFormat (t : MCPTool) : CachedTool :=
  ⟨"function", ⟨t.name, t.description, normalizeToolParameters t.inputSchema⟩⟩

/-- `ToolDiscoveryService.loadFallbackTools` (lines 371-431): the built-in
    fallback catalog. -/
def fallbackTools : List CachedTool :=
  [ ⟨"function",
      ⟨"list_devices", "List all network devices managed by Restorepoint",
        ⟨"object", [], []⟩⟩⟩,
    ⟨"function",
      ⟨"create_device", "Add a new device to the Restorepoint management system",
        ⟨"object",
          [ ("name", Json.obj [("type", Json.str "string"),
              ("description", Json.str "Device name (1-200 characters)")]),
            ("type", Json.obj [("type", Json.str "string"),
              ("description", Json.str "Device type identifier (e.g., cisco-ios, palo-alto, linux)")]),
            ("credentials", Json.obj
              [ ("type", Json.str "object"),
                ("properties", Json.obj
                  [ ("username", Json.obj [("type", Json.str "string"),
                      ("description", Json.str "Device username")]),
                    ("password", Json.obj [("type", Json.str "string"),
                      ("description", Json.str "Device password")]) ]),
                ("required", Json.arr [Json.str "username", Json.str "password"]) ]),
            ("ipAddress", Json.obj [("type", Json.str "string"),
              ("description", Json.str "Device IP address")]),
            ("hostname", Json.obj [("type", Json.str "string"),
              ("description", Json.str "Device hostname")]),
            ("description", Json.obj [("type", Json.str "string"),
              ("description", Json.str "Device description")]),
            ("enabled", Json.obj [("type", Json.str "boolean"),
              ("description", Json.str "Whether device is enabled")]) ],
          [Json.str "name", Json.str "type", Json.str "credentials"]⟩⟩⟩,
    ⟨"function",
      ⟨"get_device_requirements",
        "Get comprehensive device creation requirements including supported types and examples",
        ⟨"object",
          [ ("deviceType", Json.obj [("type", Json.str "string"),
              ("description", Json.str "Optional: Get requirements for specific device type")]) ],
          []⟩⟩⟩ ]

/-- The mutable fields of the `ToolDiscoveryService` singleton. -/
structure CacheState where
  tools : List CachedTool
  lastSync : Option Nat
  isInitialized : Bool
  syncInProgress : Bool
  timerRunning : Bool

def CACHE_TTL_MS : Nat := 5 * 60 * 1000

def SYNC_INTERVAL_MS : Nat := 2 * 60 * 1000

def MAX_RETRY_ATTEMPTS : Nat := 3

def RETRY_DELAY_MS : Nat := 5000

/-- `ToolDiscoveryService.isCacheStale` (lines 173-181). -/
def isCacheStale (s : CacheState) (now : Nat) : Bool :=
  match s.lastSync with
  | none => true
  | some ls =>
      s.tools.length == 0 || ((now : Int) - (ls : Int) > (CACHE_TTL_MS : Int))

inductive SyncStatus where
  | healthy
  | stale
  | error
  | syncing
deriving DecidableEq

/-- `ToolCacheStatus`, as returned by `getServiceStatus`. -/
structure ToolCacheStatus where
  isInitialized : Bool
  lastSync : Option Nat
  toolCount : Nat
  syncStatus : SyncStatus
  mcpConnected : Bool
  nextSyncIn : Nat

/-- `ToolDiscoveryService.getServiceStatus` (lines 136-160): a pure
    computation from the current state and clock. -/
def getServiceStatus (s : CacheState) (now : Nat) : ToolCacheStatus :=
  let nextSyncIn : Nat :=
    match s.lastSync with
    | some ls =>
        let d : Int := max 0 ((CACHE_TTL_MS : Int) - ((now : Int) - (ls : Int)))
        (d.toNat + 500) / 1000
    | none => 0
  let syncStatus : SyncStatus :=
    if s.syncInProgress then .syncing
    else if isCacheStale s now then .stale
    else if s.tools.length == 0 then .error
    else .healthy
  { isInitialized := s.isInitialized
    lastSync := s.lastSync
    toolCount := s.tools.length
    syncStatus := syncStatus
    mcpConnected := s.lastSync.isSome
    nextSyncIn := nextSyncIn }

/-- `ToolDiscoveryService.syncTools` (lines 242-276).  The awaited
    `mcpService.getAvailableTools()` is the `fetched` outcome.  Returns the
    new state and whether the call threw (`true` = the sync failed and the
    error propagates to the caller).  A sync already in progress returns
    early without error. -/
def syncTools (s : CacheState) (fetched : Except String (List MCPTool))
    (now : Nat) : CacheState × Bool :=
  if s.syncInProgress then (s, false)
  else
    match fetched with
    | .ok ts =>
        ({ s with tools := ts.map transformMcpToolToAIFormat,
                  lastSync := some now,
                  syncInProgress := false }, false)
    | .error _ => ({ s with syncInProgress := false }, true)

/-- `ToolDiscoveryService.loadFallbackTools` effect on the state: swap in
    the fallback catalog and record `lastSync = now`. -/
def loadFallbackTools (s : CacheState) (now : Nat) : CacheState :=
  { s with tools := fallbackTools, lastSync := some now }

/-- Retry loop of `syncToolsWithRetry`: `fetchAt n` is the outcome of the
    fetch in attempt `n`; `fuel` counts the attempts still allowed.  After
    a failed non-final attempt the 5-second delay elapses before the next
    attempt; when the fuel runs out the fallback catalog is loaded. -/
def syncRetryAux (fetchAt : Nat → Except String (List MCPTool)) :
    Nat → Nat → Nat → CacheState → CacheState
  | _, t, 0, s => loadFallbackTools s t
  | attempt, t, fuel + 1, s =>
      let res := syncTools s (fetchAt attempt) t
      if res.2 then
        if fuel == 0 then loadFallbackTools res.1 t
        else syncRetryAux fetchAt (attempt + 1) (t + RETRY_DELAY_MS) fuel res.1
      else res.1

/-- `ToolDiscoveryService.syncToolsWithRetry` (lines 206-237): up to
    `MAX_RETRY_ATTEMPTS` attempts, a fixed `RETRY_DELAY_MS` delay between
    attempts, and the fallback catalog when every attempt fails.  It never
    throws. -/
def syncToolsWithRetry (s : CacheState)
    (fetchAt : Nat → Except String (List MCPTool)) (t : Nat) : CacheState :=
  syncRetryAux fetchAt 1 t MAX_RETRY_ATTEMPTS s

/-- `ToolDiscoveryService.forceSync` (lines 165-168). -/
def forceSync (s : CacheState) (fetchAt : Nat → Except String (List MCPTool))
    (t : Nat) : CacheState :=
  syncToolsWithRetry s fetchAt t

/-- `ToolDiscoveryService.initialize` (lines 64-103): one synchronous
    sync-with-retry, then the periodic timer is started, the service is
    marked initialized and `lastSync = new Date()` is recorded (the single
    time parameter `t` stands for this call's wall clock).  The `catch`
    branch is unreachable because `syncToolsWithRetry` never throws. -/
def initService (s : CacheState)
    (fetchAt : Nat → Except String (List MCPTool)) (t : Nat) : CacheState :=
  if s.isInitialized then s
  else
    let s1 := syncToolsWithRetry s fetchAt t
    { s1 with timerRunning := true, isInitialized := true, lastSync := some t }

/-- Result of one `getToolsForAI` call: the returned snapshot, the state
    after the call returns, and whether a background refresh was started. -/
structure ReadResult where
  snapshot : List CachedTool
  state : CacheState
  triggered : Bool

/-- `ToolDiscoveryService.getToolsForAI` (lines 108-131): lazily
    initializes, then, when the cache is stale and no sync is in flight,
    fires `syncToolsAsync()` WITHOUT awaiting it — the un-awaited call runs
    synchronously up to its first await, so `syncInProgress` is already set
    when the read returns, but the returned snapshot is still the current
    (old) tools array.  The triggered sync completes later
    (`completeAsyncSync`). -/
def getToolsForAI (s : CacheState)
    (fetchAt : Nat → Except String (List MCPTool)) (t : Nat) : ReadResult :=
  let s1 := if s.isInitialized then s else initService s fetchAt t
  if isCacheStale s1 t && !s1.syncInProgress then
    { snapshot := s1.tools, state := { s1 with syncInProgress := true },
      triggered := true }
  else
    { snapshot := s1.tools, state := s1, triggered := false }

/-- Completion of a fire-and-forget `syncToolsAsync` begun by a stale read:
    the body of `syncTools` resumes after its awaited fetch; errors are
    swallowed (`syncToolsAsync` does not rethrow). -/
def completeAsyncSync (s : CacheState)
    (fetched : Except String (List MCPTool)) (now : Nat) : CacheState :=
  match fetched with
  | .ok ts =>
      { s with tools := ts.map transformMcpToolToAIFormat,
               lastSync := some now,
               syncInProgress := false }
  | .error _ => { s with syncInProgress := false }

/-- One tick of the periodic timer started by `startPeriodicSync` (lines
    186-201): guarded by the in-flight flag, then `syncToolsAsync` (which
    swallows sync errors). -/
def timerTick (s : CacheState) (fetched : Except String (List MCPTool))
    (now : Nat) : CacheState :=
  if s.syncInProgress then s
  else (syncTools s fetched now).1

/-- `ToolDiscoveryService.shutdown` (lines 436-449): stop the timer, clear
    the tools, forget the last sync, mark uninitialized. -/
def shutdown (s : CacheState) : CacheState :=
  { s with timerRunning := false, isInitialized := false,
           tools := [], lastSync := none }

/-! ## String helpers (JS `String.prototype` operations) -/

/-- Does `h` start with `n`? -/
def startsWithChars : List Char → List Char → Bool
  | _, [] => true
  | [], _ :: _ => false
  | c :: cs, d :: ds => c == d && startsWithChars cs ds

/-- Does `h` contain `n` as a contiguous sublist? -/
def hasSubChars : List Char → List Char → Bool
  | [], n => n.isEmpty
  | h@(_ :: rest), n => startsWithChars h n || hasSubChars rest n

/-- JS `haystack.includes(needle)`. -/
def strIncludes (haystack needle : String) : Bool :=
  hasSubChars haystack.toList needle.toList

/-- JS `a || b` on strings (empty string is falsy). -/
def jsOrStr (a b : String) : String :=
  if a == "" then b else a

/-- JS `toLowerCase()` (ASCII, which is all the compared data uses). -/
def strToLower (s : String) : String :=
  String.mk (s.toList.map Char.toLower)

/-! ## `zai.service.ts`: topic validation -/

def restorepointKeywords : List String :=
  [ "device", "backup", "command", "network", "restorepoint",
    "list", "show", "run", "execute", "status", "create",
    "update", "delete", "monitor", "check", "start", "stop",
    "configure", "configuration", "settings", "manage", "management" ]

structure TopicValidation where
  isValid : Bool
  reason : Option String

def topicRefusalText : String :=
  "I can only help with Restorepoint network management topics. Please ask about devices, backups, commands, or network status."

/-- `ZAIService.validateTopic` (lines 198-218): the message passes iff its
    lower-cased text contains at least one of the fixed keywords. -/
def validateTopic (message : String) : TopicValidation :=
  if restorepointKeywords.any fun kw => strIncludes (strToLower message) kw then
    ⟨true, none⟩
  else
    ⟨false, some topicRefusalText⟩

/-! ## `mcp.service.ts` / `mcp-http.service.ts`: tool execution -/

structure ToolCallFunction where
  name : String
  arguments : String

/-- A model-requested tool call (`ToolCall`): `{id, type: 'function',
    function: {name, arguments}}`. -/
structure ToolCall where
  id : String
  ctype : String
  func : ToolCallFunction

structure McpError where
  code : String
  message : String
  details : Option Json

/-- `McpResult` (the `message` field of the interface is never set by
    `executeTool` and is omitted). -/
structure McpResult where
  success : Bool
  data : Option Json := none
  error : Option McpError := none
  metadata : Option Json := none

/-- `MCPToolResponse`, the body returned by the HTTP MCP server. -/
structure MCPToolResponse where
  success : Bool
  data : Option Json := none
  error : Option McpError := none
  metadata : Option Json := none

/-- The structured error response `MCPHttpService.executeTool` builds in
    its `catch` (lines 782-796).  `details` holds the
    `handleAxiosError` rendering of the failure, abstracted here to the
    thrown message itself. -/
def mcpHttpErrorResponse (toolName : String) (e : String) (nowIso : String) :
    MCPToolResponse :=
  { success := false
    error := some ⟨"EXECUTION_ERROR", jsOrStr e "Failed to execute tool",
                   some (Json.str e)⟩
    metadata := some (Json.obj
      [ ("executionTime", Json.num 0),
        ("timestamp", Json.str nowIso),
        ("toolName", Json.str toolName) ]) }

/-- `MCPHttpService.executeTool` (lines 750-797).  `parsedArgs` is the
    outcome of `JSON.parse(toolCall.function.arguments)`; `httpOutcome` is
    the awaited POST to `/tools/execute`.  Every failure path — client not
    initialized, unparseable arguments, transport error — lands in the
    `catch` and is returned as a structured error, never thrown. -/
def mcpHttpExecuteTool (tc : ToolCall) (initialized : Bool)
    (parsedArgs : Except String Json)
    (httpOutcome : Except String MCPToolResponse)
    (nowIso : String) : MCPToolResponse :=
  if !initialized then
    mcpHttpErrorResponse tc.func.name "MCP HTTP client not initialized" nowIso
  else
    match parsedArgs with
    | .error e => mcpHttpErrorResponse tc.func.name e nowIso
    | .ok _ =>
        match httpOutcome with
        | .error e => mcpHttpErrorResponse tc.func.name e nowIso
        | .ok resp => resp

/-- `MCPService.executeTool` (lines 331-399).  `inner` is the awaited
    inner work (lazy `initialize()` plus `mcpHttpService.executeTool`);
    `.error` models any exception escaping it.  The result is always a
    returned `McpResult` — the output type has no failure component, which
    is the totality the orchestrator relies on.  (`details.stack` is
    omitted from the model.) -/
def mcpExecuteTool (tc : ToolCall) (inner : Except String MCPToolResponse) :
    McpResult :=
  match inner with
  | .error e =>
      { success := false
        error := some ⟨"EXECUTION_ERROR", jsOrStr e "Tool execution failed",
          some (Json.obj [("toolName", Json.str tc.func.name),
                          ("arguments", Json.str tc.func.arguments)])⟩ }
  | .ok r =>
      if r.success then
        { success := true, data := r.data, metadata := r.metadata }
      else
        { success := false
          error := some
            ⟨ jsOrStr (match r.error with | some er => er.code | none => "")
                "TOOL_EXECUTION_FAILED"
            , jsOrStr (match r.error with | some er => er.message | none => "")
                "Tool execution failed"
            , r.error.bind fun er => er.details ⟩
          metadata := r.metadata }

/-! ## `chat.service.ts`: identifier extraction

The three extractors use JS regexes with `g`; the scanners below implement
the same leftmost, non-overlapping matching.  `\b` is a word boundary
(`\w = [A-Za-z0-9_]`); every scanner carries whether a match may start at
the current position (previous character non-word, or start of input). -/

/-- JS `\w`. -/
def isWordChar (c : Char) : Bool :=
  c.isAlphanum || c == '_'

def isUpperAZ (c : Char) : Bool :=
  'A' ≤ c && c ≤ 'Z'

/-- `List.span` with an easy length bound for termination proofs. -/
def spanChars (p : Char → Bool) : List Char → List Char × List Char
  | [] => ([], [])
  | c :: cs =>
      if p c then
        let r := spanChars p cs
        (c :: r.1, r.2)
      else ([], c :: cs)

/-- First-occurrence deduplication, as `[...new Set(xs)]`. -/
def dedupStrings (xs : List String) : List String :=
  xs.foldl (fun acc x => if acc.contains x then acc else acc ++ [x]) []

/-- One matching attempt of `(?:[0-9]{1,3}\.){3}` group: a maximal digit
    run of length 1-3 followed by a literal dot (a longer run leaves no
    backtracking choice that puts a dot after the digits). -/
def ipGroupDot (cs : List Char) : Option (List Char × List Char) :=
  let r := spanChars Char.isDigit cs
  if 1 ≤ r.1.length && r.1.length ≤ 3 then
    match r.2 with
    | '.' :: rest => some (r.1 ++ ['.'], rest)
    | _ => none
  else none

/-- Word boundary after a match that ends in a word character. -/
def boundaryAfter : List Char → Bool
  | [] => true
  | c :: _ => !isWordChar c

/-- Matching attempt of `/\b(?:[0-9]{1,3}\.){3}[0-9]{1,3}\b/` at the
    current position (the leading boundary is the scanner's duty). -/
def ipMatchAt (cs : List Char) : Option (List Char × List Char) := do
  let g1 ← ipGroupDot cs
  let g2 ← ipGroupDot g1.2
  let g3 ← ipGroupDot g2.2
  let r := spanChars Char.isDigit g3.2
  if 1 ≤ r.1.length && r.1.length ≤ 3 && boundaryAfter r.2 then
    some (g1.1 ++ g2.1 ++ g3.1 ++ r.1, r.2)
  else none

/-- Matching attempt of `/\b[A-Z]+-\d+[A-Z]*\b/` at the current position:
    maximal runs, then the trailing boundary must hold (no backtracking
    split of a run can create a boundary between two word characters). -/
def upperNumMatchAt (cs : List Char) : Option (List Char × List Char) :=
  let us := spanChars isUpperAZ cs
  if us.1.isEmpty then none
  else
    match us.2 with
    | '-' :: r2 =>
        let ds := spanChars Char.isDigit r2
        if ds.1.isEmpty then none
        else
          let us2 := spanChars isUpperAZ ds.2
          if boundaryAfter us2.2 then
            some (us.1 ++ '-' :: ds.1 ++ us2.1, us2.2)
          else none
    | _ => none

/-- Backtracking of the trailing `[a-zA-Z0-9-]+\b`: longest nonempty
    prefix after which the word boundary holds.  `\b` holds at a position
    iff the characters on its two sides differ in wordness (at the end of
    the input: iff the last character is a word character) — so a prefix
    ending in `-` also matches when the next character is a word
    character, e.g. `_`.  First argument: wordness of the character right
    after the full run (`none` = end of input).  Scans the reversed run,
    keeping the dropped suffix in original order. -/
def backoffBoundary (afterWord : Option Bool) :
    List Char → List Char → Option (List Char × List Char)
  | [], _ => none
  | c :: revRest, dropped =>
      let boundary :=
        match dropped with
        | [] =>
            match afterWord with
            | none => isWordChar c
            | some w => isWordChar c != w
        | d :: _ => isWordChar c != isWordChar d
      if boundary then some ((c :: revRest).reverse, dropped)
      else backoffBoundary afterWord revRest (c :: dropped)

/-- Matching attempt of `/\b[a-zA-Z]+-[a-zA-Z0-9-]+\b/` at the current
    position. -/
def nameDashMatchAt (cs : List Char) : Option (List Char × List Char) :=
  let ls := spanChars Char.isAlpha cs
  if ls.1.isEmpty then none
  else
    match ls.2 with
    | '-' :: r2 =>
        let body := spanChars (fun c => c.isAlphanum || c == '-') r2
        if body.1.isEmpty then none
        else
          match backoffBoundary (body.2.head?.map isWordChar) body.1.reverse [] with
          | some (pre, dropped) =>
              some (ls.1 ++ '-' :: pre, dropped ++ body.2)
          | none => none
    | _ => none

/-- May a match (whose patterns all start with a word character) begin
    right after the given match?  Yes iff the match's last character is
    not a word character. -/
def matchEndBoundaryOk (m : List Char) : Bool :=
  match m.reverse with
  | c :: _ => !isWordChar c
  | [] => true

/-- Global scan (`lastIndex` semantics): try the pattern at each position
    where the leading `\b` holds (every pattern starts with a word
    character, so that boundary is "previous character non-word or start
    of input"); after a match continue right after it.  Fuel is the input
    length; each step consumes at least one character. -/
def scanPattern (matchAt : List Char → Option (List Char × List Char)) :
    Nat → Bool → List Char → List String
  | 0, _, _ => []
  | _ + 1, _, [] => []
  | fuel + 1, bOk, c :: rest =>
      if bOk then
        match matchAt (c :: rest) with
        | some (m, rest') =>
            String.mk m :: scanPattern matchAt fuel (matchEndBoundaryOk m) rest'
        | none => scanPattern matchAt fuel (!isWordChar c) rest
      else scanPattern matchAt fuel (!isWordChar c) rest

/-- Global scan of `/"([^"]+)"/g`; the stripped capture equals the quoted
    body, so the bodies are returned directly. -/
def scanQuoted : Nat → List Char → List String
  | 0, _ => []
  | _ + 1, [] => []
  | fuel + 1, c :: rest =>
      if c == '"' then
        let body := spanChars (fun d => d != '"') rest
        match body.2 with
        | _ :: rest' =>
            if body.1.isEmpty then scanQuoted fuel rest
            else String.mk body.1 :: scanQuoted fuel rest'
        | [] => scanQuoted fuel rest
      else scanQuoted fuel rest

/-- `ChatService.extractIPAddresses` (lines 230-235). -/
def extractIPAddresses (message : String) : List String :=
  let cs := message.toList
  dedupStrings (scanPattern ipMatchAt cs.length true cs)

/-- `ChatService.extractDeviceNames` (lines 237-254): quoted names (with
    the quotes stripped), then the two hyphenated-name patterns, then
    deduplication. -/
def extractDeviceNames (message : String) : List String :=
  let cs := message.toList
  dedupStrings
    (scanQuoted cs.length cs
      ++ scanPattern upperNumMatchAt cs.length true cs
      ++ scanPattern nameDashMatchAt cs.length true cs)

/-- The fixed keyword list of `ChatService.extractKeywords` (lines
    256-270). -/
def deviceKeywords : List String :=
  [ "cisco", "palo alto", "juniper", "aruba", "fortinet",
    "router", "switch", "firewall", "controller",
    "ios", "junos", "catos", "palo" ]

/-- `ChatService.extractKeywords`. -/
def extractKeywords (message : String) : List String :=
  deviceKeywords.filter fun kw => strIncludes (strToLower message) (strToLower kw)

/-! ## `chat.service.ts`: entity resolution -/

/-- Result of `ChatService.resolveDeviceIdentifiers`, plus whether the
    `list_devices` round trip was issued. -/
structure ResolveResult where
  matchedDevices : List Json
  deviceContext : String
  networkCalled : Bool

/-- The response-shape probing of `resolveDeviceIdentifiers` (lines
    70-127): `data.data.data`, a direct array, `data.data`, `data.result`,
    else fail closed (`none` = the code returns the empty result). -/
def unwrapDeviceList (devicesResult : McpResult) : Option (List Json) :=
  match devicesResult.data with
  | none => none
  | some dataResponse =>
      if !devicesResult.success || !jsTruthy dataResponse then none
      else if jsTypeofObject dataResponse && jsHasKey dataResponse "data"
          && jsTruthy (jsGetD dataResponse "data")
          && (jsGetD (jsGetD dataResponse "data") "data" matches Json.arr _) then
        match jsGetD (jsGetD dataResponse "data") "data" with
        | Json.arr xs => some xs
        | _ => none
      else
        match dataResponse with
        | Json.arr xs => some xs
        | _ =>
            if jsTypeofObject dataResponse then
              match jsGetD dataResponse "data" with
              | Json.arr xs => some xs
              | _ =>
                  match jsGetD dataResponse "result" with
                  | Json.arr xs => some xs
                  | _ => none
            else none

/-- `device[k] || ''` as read by the matchers: a falsy value is replaced
    by `""`; a truthy string is used; a truthy non-string makes the string
    method (`.includes`/`.toLowerCase`) called on it throw, which the
    outer catch of `resolveDeviceIdentifiers` absorbs. -/
def jsStrFieldE (device : Json) (k : String) : Except String String :=
  let v := jsGetD device k
  if jsTruthy v then
    match v with
    | .str str => .ok str
    | _ => .error "TypeError: not a string"
  else .ok ""

/-- IP matching (lines 142-155): exact equality or substring containment
    in either direction; `.error` models the throw on a truthy non-string
    `Address`. -/
def deviceMatchesIP (ip : String) (device : Json) : Except String Bool := do
  let deviceIP ← jsStrFieldE device "Address"
  return deviceIP == ip || strIncludes deviceIP ip || strIncludes ip deviceIP

/-- Name matching (lines 158-171): case-insensitive substring in either
    direction. -/
def deviceMatchesName (name : String) (device : Json) : Except String Bool := do
  let deviceName ← jsStrFieldE device "Name"
  let deviceNameLower := strToLower deviceName
  let nameLower := strToLower name
  return strIncludes deviceNameLower nameLower
    || strIncludes nameLower deviceNameLower

/-- Short-circuiting `.some`, evaluating its fallible predicate in list
    order as JS does. -/
def jsSomeE {α : Type} (p : α → Except String Bool) :
    List α → Except String Bool
  | [] => .ok false
  | x :: xs => do
      let b ← p x
      if b then return true else jsSomeE p xs

/-- Keyword matching (lines 174-200): against `PluginName` first (an early
    hit returns before `AssetFields` is even read), then against each
    `AssetFields[i].Value`; `device.AssetFields || []` with a truthy
    non-array throws at the `.some` call. -/
def deviceMatchesKeyword (keyword : String) (device : Json) :
    Except String Bool := do
  let keywordLower := strToLower keyword
  let pluginName ← jsStrFieldE device "PluginName"
  if strIncludes (strToLower pluginName) keywordLower then
    return true
  else
    let fs ←
      match jsGetD device "AssetFields" with
      | Json.arr fs => Except.ok fs
      | v =>
          if jsTruthy v then Except.error "TypeError: not an array"
          else Except.ok []
    jsSomeE
      (fun f => do
        let fieldValue ← jsStrFieldE f "Value"
        return strIncludes (strToLower fieldValue) keywordLower)
      fs

/-- `Array.prototype.filter` with a fallible callback, evaluated in list
    order: the first throw aborts the whole filter. -/
def filterE {α : Type} (p : α → Except String Bool) :
    List α → Except String (List α)
  | [] => .ok []
  | x :: xs => do
      let b ← p x
      let rest ← filterE p xs
      return if b then x :: rest else rest

/-- One extractor's matching loop (`for (const c of cands) matched.push(
    ...allDevices.filter(...))`): candidate by candidate, a throw anywhere
    aborts the loop. -/
def collectMatches (f : String → Json → Except String Bool)
    (allDevices : List Json) : List String → Except String (List Json)
  | [] => .ok []
  | c :: cs => do
      let m ← filterE (f c) allDevices
      let rest ← collectMatches f allDevices cs
      return m ++ rest

/-- The three matching loops of lines 139-200 in source order; any throw
    lands in the outer catch. -/
def matchDevices (ipAddresses deviceNames keywords : List String)
    (allDevices : List Json) : Except String (List Json) := do
  let m1 ← collectMatches deviceMatchesIP allDevices ipAddresses
  let m2 ← collectMatches deviceMatchesName allDevices deviceNames
  let m3 ← collectMatches deviceMatchesKeyword allDevices keywords
  return m1 ++ m2 ++ m3

/-- Deduplication by `ID` (lines 203-205): keep the first device carrying
    each `ID`. -/
def dedupById (devices : List Json) : List Json :=
  devices.foldl
    (fun acc d =>
      if acc.any (fun d' => jsonBeq (jsGetD d' "ID") (jsGetD d "ID")) then acc
      else acc ++ [d])
    []

/-- The context block rendered at lines 213-220. -/
def buildDeviceContext (uniqueDevices : List Json) : String :=
  if uniqueDevices.isEmpty then ""
  else
    "\n\n## Device Matches Found:\n"
      ++ String.join (uniqueDevices.map fun d =>
          "- " ++ jsToString (jsGetD d "Name")
            ++ " (ID: " ++ jsToString (jsGetD d "ID")
            ++ ", IP: " ++ jsToString (jsGetD d "Address")
            ++ ", Type: " ++ jsToString (jsGetD d "PluginName") ++ ")\n")
      ++ "\nUse these device IDs for any operations: "
      ++ String.intercalate ", " (uniqueDevices.map fun d => jsToString (jsGetD d "ID"))
      ++ "\n"

/-- `ChatService.resolveDeviceIdentifiers` (lines 41-228).  `listOutcome`
    is the awaited `mcpService.executeTool(list_devices)`; `.error` models
    anything thrown inside the `try` (network failure, unexpected value),
    which the outer `catch` converts to the empty result. -/
def resolveDeviceIdentifiers (message : String)
    (listOutcome : Except String McpResult) : ResolveResult :=
  let ipAddresses := extractIPAddresses message
  let deviceNames := extractDeviceNames message
  let keywords := extractKeywords message
  if ipAddresses.isEmpty && deviceNames.isEmpty && keywords.isEmpty then
    ⟨[], "", false⟩
  else
    match listOutcome with
    | .error _ => ⟨[], "", true⟩
    | .ok devicesResult =>
        match unwrapDeviceList devicesResult with
        | none => ⟨[], "", true⟩
        | some allDevices =>
            match matchDevices ipAddresses deviceNames keywords allDevices with
            | .error _ => ⟨[], "", true⟩
            | .ok ms =>
                let uniqueDevices := dedupById ms
                ⟨uniqueDevices, buildDeviceContext uniqueDevices, true⟩

/-! ## `chat.service.ts`: the round loop of `processMessage` -/

/-- One turn of the request-scoped conversation (`updatedHistory`). -/
inductive Turn where
  | user (content : String)
  | assistant (content : String) (tool_calls : List ToolCall)
  | tool (tool_call_id : String) (content : Json)

/-- One model response: assistant text plus requested tool calls (an
    absent `tool_calls` is the empty list). -/
structure ModelResponse where
  content : String
  tool_calls : List ToolCall

/-- One entry of `executionResults` (lines 338-342 / 362-366). -/
structure ExecEntry where
  toolName : String
  success : Bool
  result : Option McpResult := none
  error : Option String := none

def mcpErrorToJson (e : McpError) : Json :=
  Json.obj ([("code", Json.str e.code), ("message", Json.str e.message)]
    ++ match e.details with
       | some d => [("details", d)]
       | none => [])

/-- `JSON.stringify(result)` for a tool turn's content (absent optional
    fields are dropped, as stringify drops `undefined`). -/
def mcpResultToJson (r : McpResult) : Json :=
  Json.obj ([("success", Json.bool r.success)]
    ++ (match r.data with | some d => [("data", d)] | none => [])
    ++ (match r.error with | some e => [("error", mcpErrorToJson e)] | none => [])
    ++ (match r.metadata with | some m => [("metadata", m)] | none => []))

/-- One round's execution phase (the `for (const toolCall of ...)` loop,
    lines 333-375 and 408-452): every call runs inside its own try/catch,
    so no outcome aborts the remaining calls.  `exec` is the awaited
    `mcpService.executeTool`; `.error` models a rejected promise.  Returns
    the `executionResults` entries, the appended tool turns, and the
    `toolsUsed` names (pushed before the call, hence present in both
    branches), all in call order. -/
def executeCalls (exec : ToolCall → Except String McpResult) :
    List ToolCall → List ExecEntry × List Turn × List String
  | [] => ([], [], [])
  | c :: cs =>
      let rest := executeCalls exec cs
      match exec c with
      | .ok r =>
          ({ toolName := c.func.name, success := true, result := some r } :: rest.1,
           Turn.tool c.id (mcpResultToJson r) :: rest.2.1,
           c.func.name :: rest.2.2)
      | .error e =>
          ({ toolName := c.func.name, success := false, error := some e } :: rest.1,
           Turn.tool c.id (Json.obj [("error", Json.str e)]) :: rest.2.1,
           c.func.name :: rest.2.2)

/-- The observable outcome of one `processMessage` request, with call
    counters for the no-network claims.  `executionResults := none` models
    the refusal result, which omits the field. -/
structure ChatOutcome where
  response : String
  toolsUsed : List String
  executionResults : Option (List ExecEntry)
  history : List Turn
  modelCalls : Nat
  phases : Nat
  resolverRan : Bool
  resolverNetworkCalled : Bool

/-- The `do/while` of lines 380-457: each iteration issues one model call
    (consuming the next scripted response), appends the assistant turn,
    and if the response carries tool calls runs one more execution phase;
    the loop ends at the first response without tool calls, whose content
    (or, if empty, the first response's content) becomes the final
    answer.  An exhausted script models a failing model call, which the
    outer catch rethrows as a request failure. -/
def chatLoop (exec : ToolCall → Except String McpResult)
    (firstContent : String) (resolverNet : Bool) :
    List ModelResponse → List Turn → List String → List ExecEntry →
    Nat → Nat → Except String ChatOutcome
  | [], _, _, _, _, _ => .error "Chat processing failed: model call failed"
  | r :: rest, hist, used, entries, modelCalls, phases =>
      let hist1 := hist ++ [Turn.assistant r.content r.tool_calls]
      if r.tool_calls.isEmpty then
        .ok { response := jsOrStr r.content firstContent
              toolsUsed := used
              executionResults := some entries
              history := hist1
              modelCalls := modelCalls + 1
              phases := phases
              resolverRan := true
              resolverNetworkCalled := resolverNet }
      else
        let (es, ts, us) := executeCalls exec r.tool_calls
        chatLoop exec firstContent resolverNet rest (hist1 ++ ts) (used ++ us)
          (entries ++ es) (modelCalls + 1) (phases + 1)

/-- `ChatService.processMessage` (lines 272-500): topic validation, then
    entity resolution, then the model/tool round loop.  `script` is the
    sequence of model responses the AI returns, in order; `exec` and
    `listOutcome` are the awaited tool-provider operations. -/
def processMessage (message : String) (listOutcome : Except String McpResult)
    (exec : ToolCall → Except String McpResult)
    (script : List ModelResponse) : Except String ChatOutcome :=
  let tv := validateTopic message
  if !tv.isValid then
    .ok { response := jsOrStr (tv.reason.getD "") topicRefusalText
          toolsUsed := []
          executionResults := none
          history := []
          modelCalls := 0
          phases := 0
          resolverRan := false
          resolverNetworkCalled := false }
  else
    let res := resolveDeviceIdentifiers message listOutcome
    let _enhanced :=
      if res.deviceContext != "" then message ++ res.deviceContext else message
    match script with
    | [] => .error "Chat processing failed: model call failed"
    | r :: rest =>
        if r.tool_calls.isEmpty then
          .ok { response := r.content
                toolsUsed := []
                executionResults := some []
                history := []
                modelCalls := 1
                phases := 0
                resolverRan := true
                resolverNetworkCalled := res.networkCalled }
        else
          let (es, ts, us) := executeCalls exec r.tool_calls
          let hist := [Turn.user message, Turn.assistant r.content r.tool_calls] ++ ts
          chatLoop exec r.content res.networkCalled rest hist us es 1 1

/-- The shape contract of a published catalog entry's `parameters`:
    `type: "object"` and every property carries a truthy `type`. -/
def isNormalShape (p : NormalizedParams) : Bool :=
  p.schemaType == "object" && p.properties.all fun kv => jsTruthy (jsGetD kv.2 "type")

/-! ## Helper lemmas -/

theorem stale_of_no_tools (s : CacheState) (now : Nat) (h : s.tools = []) :
    isCacheStale s now = true := by
  unfold isCacheStale
  cases s.lastSync <;> simp [h]

theorem status_ne_error (s : CacheState) (now : Nat) :
    (getServiceStatus s now).syncStatus ≠ SyncStatus.error := by
  unfold getServiceStatus
  by_cases hp : s.syncInProgress
  · simp [hp]
  · by_cases hst : isCacheStale s now
    · simp [hp, hst]
    · have htools : s.tools ≠ [] := by
        intro h
        rw [stale_of_no_tools s now h] at hst
        exact hst rfl
      have hlen : (s.tools.length == 0) = false := by
        simp [List.length_eq_zero, htools]
      simp [hp, hst, hlen]

theorem snapshot_of_initialized (s : CacheState)
    (fetchAt : Nat → Except String (List MCPTool)) (t : Nat)
    (h : s.isInitialized = true) :
    (getToolsForAI s fetchAt t).snapshot = s.tools := by
  unfold getToolsForAI
  rw [h]
  simp only [if_true]
  split <;> rfl

/-! ## Claims -/

/-- C10: in every state of the cache (reachable or not), `getServiceStatus`
    never reports `syncStatus = 'error'`; when the tool list is empty,
    `isCacheStale` already holds, so the computed status is `'syncing'` or
    `'stale'` and the `'error'` branch of the `ToolCacheStatus` type is
    unreachable. -/
theorem c10_status_error_unreachable (s : CacheState) (now : Nat) :
    (getServiceStatus s now).syncStatus ≠ SyncStatus.error
    ∧ (s.tools = [] → isCacheStale s now = true
        ∧ ((getServiceStatus s now).syncStatus = SyncStatus.syncing
            ∨ (getServiceStatus s now).syncStatus = SyncStatus.stale)) := by
  refine ⟨status_ne_error s now, fun h => ⟨stale_of_no_tools s now h, ?_⟩⟩
  unfold getServiceStatus
  by_cases hp : s.syncInProgress
  · simp [hp]
  · simp [hp, stale_of_no_tools s now h]

/-- C10 witness: a concrete empty-catalog state. -/
theorem c10_status_error_unreachable_witness :
    (getServiceStatus ⟨[], none, true, false, false⟩ 0).syncStatus ≠ SyncStatus.error
    ∧ (isCacheStale ⟨[], none, true, false, false⟩ 0 = true
        ∧ ((getServiceStatus ⟨[], none, true, false, false⟩ 0).syncStatus = SyncStatus.syncing
            ∨ (getServiceStatus ⟨[], none, true, false, false⟩ 0).syncStatus = SyncStatus.stale)) :=
  ⟨(c10_status_error_unreachable ⟨[], none, true, false, false⟩ 0).1,
   (c10_status_error_unreachable ⟨[], none, true, false, false⟩ 0).2 rfl⟩

/-- When the in-flight flag is clear and all three fetch attempts reject,
    `syncToolsWithRetry` ends in the fallback catalog with `lastSync`
    stamped at the final attempt. -/
theorem syncRetry_all_fail (s : CacheState)
    (fetchAt : Nat → Except String (List MCPTool))
    (t : Nat) (e1 e2 e3 : String)
    (hflag : s.syncInProgress = false)
    (h1 : fetchAt 1 = .error e1) (h2 : fetchAt 2 = .error e2)
    (h3 : fetchAt 3 = .error e3) :
    syncToolsWithRetry s fetchAt t
      = { s with syncInProgress := false, tools := fallbackTools,
                 lastSync := some (t + RETRY_DELAY_MS + RETRY_DELAY_MS) } := by
  unfold syncToolsWithRetry MAX_RETRY_ATTEMPTS
  rw [show (3 : Nat) = 2 + 1 from rfl]
  simp only [syncRetryAux, syncTools, hflag, h1, h2, h3]
  simp [loadFallbackTools]

/-- C1: if every sync attempt fails for the configured retry count (3
    attempts, 5-second fixed delay), the cache swaps in the built-in
    fallback tool set; afterwards `getToolsForAI` returns exactly the
    fallback tools, `getServiceStatus().lastSync` is non-null, and
    `getServiceStatus()` does not report the `error` health state. -/
theorem c1_fallback_on_total_sync_failure
    (s : CacheState) (fetchAt fetchAt2 : Nat → Except String (List MCPTool))
    (t t2 now : Nat) (e1 e2 e3 : String)
    (hflag : s.syncInProgress = false) (hinit : s.isInitialized = true)
    (h1 : fetchAt 1 = .error e1) (h2 : fetchAt 2 = .error e2)
    (h3 : fetchAt 3 = .error e3) :
    (syncToolsWithRetry s fetchAt t).tools = fallbackTools
    ∧ (syncToolsWithRetry s fetchAt t).lastSync ≠ none
    ∧ (getToolsForAI (syncToolsWithRetry s fetchAt t) fetchAt2 t2).snapshot
        = fallbackTools
    ∧ (getServiceStatus (syncToolsWithRetry s fetchAt t) now).lastSync ≠ none
    ∧ (getServiceStatus (syncToolsWithRetry s fetchAt t) now).syncStatus
        ≠ SyncStatus.error
    ∧ MAX_RETRY_ATTEMPTS = 3 ∧ RETRY_DELAY_MS = 5000 := by
  rw [syncRetry_all_fail s fetchAt t e1 e2 e3 hflag h1 h2 h3]
  refine ⟨rfl, by simp, ?_, ?_, status_ne_error _ _, rfl, rfl⟩
  · have h := snapshot_of_initialized
      { tools := fallbackTools,
        lastSync := some (t + RETRY_DELAY_MS + RETRY_DELAY_MS),
        isInitialized := s.isInitialized, syncInProgress := false,
        timerRunning := s.timerRunning } fetchAt2 t2 hinit
    simpa using h
  · simp [getServiceStatus]

/-- C1 witness: an initialized cache whose provider is unreachable on all
    three attempts. -/
theorem c1_fallback_on_total_sync_failure_witness :
    (syncToolsWithRetry ⟨[], none, true, false, true⟩
        (fun _ => .error "ECONNREFUSED") 0).tools = fallbackTools
    ∧ (syncToolsWithRetry ⟨[], none, true, false, true⟩
        (fun _ => .error "ECONNREFUSED") 0).lastSync ≠ none
    ∧ (getToolsForAI (syncToolsWithRetry ⟨[], none, true, false, true⟩
        (fun _ => .error "ECONNREFUSED") 0)
        (fun _ => .error "ECONNREFUSED") 10).snapshot = fallbackTools
    ∧ (getServiceStatus (syncToolsWithRetry ⟨[], none, true, false, true⟩
        (fun _ => .error "ECONNREFUSED") 0) 10).lastSync ≠ none
    ∧ (getServiceStatus (syncToolsWithRetry ⟨[], none, true, false, true⟩
        (fun _ => .error "ECONNREFUSED") 0) 10).syncStatus ≠ SyncStatus.error
    ∧ MAX_RETRY_ATTEMPTS = 3 ∧ RETRY_DELAY_MS = 5000 :=
  c1_fallback_on_total_sync_failure ⟨[], none, true, false, true⟩
    (fun _ => .error "ECONNREFUSED") (fun _ => .error "ECONNREFUSED")
    0 10 10 "ECONNREFUSED" "ECONNREFUSED" "ECONNREFUSED"
    rfl rfl rfl rfl rfl

theorem setFieldIn_find (fs : List (String × Json)) (k : String) (v : Json) :
    ((setFieldIn fs k v).find? fun kv => kv.1 == k) = some (k, v) := by
  induction fs with
  | nil => simp [setFieldIn]
  | cons hd tl ih =>
      obtain ⟨k', v'⟩ := hd
      simp only [setFieldIn]
      by_cases h : (k' == k) = true
      · simp [h]
      · have hb : (k' == k) = false := by simpa using h
        rw [if_neg h]
        simp only [List.find?, hb]
        exact ih

theorem fixup_type_truthy (k : String) (v : Json) :
    jsTruthy (jsGetD (fixupProperty k v) "type") = true := by
  unfold fixupProperty
  split
  · rfl
  · split
    · unfold jsSpreadSet jsGetD jsGet jsObjFields
      rw [setFieldIn_find]
      rfl
    · rename_i h1 h2
      simpa using h2

theorem fixup_lacking_string (k : String) (v : Json)
    (h : jsTruthy (jsGetD v "type") = false) :
    jsGetD (fixupProperty k v) "type" = Json.str "string" := by
  unfold fixupProperty
  split
  · rfl
  · rw [if_pos]
    · unfold jsSpreadSet jsGetD jsGet jsObjFields
      rw [setFieldIn_find]
      rfl
    · simp [h]

theorem normalize_schemaType (schema : Json) :
    (normalizeToolParameters schema).schemaType = "object" := by
  unfold normalizeToolParameters
  split <;> rfl

theorem mem_map_fixup {l : List (String × Json)} {kv : String × Json}
    (h : kv ∈ l.map fun p => (p.1, fixupProperty p.1 p.2)) :
    jsTruthy (jsGetD kv.2 "type") = true := by
  obtain ⟨p, hp, rfl⟩ := List.mem_map.mp h
  exact fixup_type_truthy p.1 p.2

theorem normalize_props_truthy (schema : Json) (kv : String × Json)
    (h : kv ∈ (normalizeToolParameters schema).properties) :
    jsTruthy (jsGetD kv.2 "type") = true := by
  unfold normalizeToolParameters at h
  split at h
  · simp at h
  · exact mem_map_fixup h

theorem isNormalShape_normalize (schema : Json) :
    isNormalShape (normalizeToolParameters schema) = true := by
  unfold isNormalShape
  rw [normalize_schemaType]
  simp only [List.all_eq_true, Bool.and_eq_true, beq_self_eq_true, true_and]
  intro kv hkv
  exact normalize_props_truthy schema kv hkv

/-- C2: normalization always yields `{type: "object", properties,
    required}` with missing `properties` defaulting to `{}`, missing
    `required` defaulting to `[]`, and every property lacking a truthy
    `type` coerced to `type: "string"`; the schema `{type:"object"}`
    normalizes to `{type:"object", properties:{}, required:[]}`; and every
    entry placed in a snapshot (by a sync or by the fallback loader)
    satisfies this shape. -/
theorem c2_schema_normalization :
    (∀ schema : Json, (normalizeToolParameters schema).schemaType = "object")
    ∧ (∀ schema : Json,
        (jsTruthy (jsGetD schema "properties")
          && jsTypeofObject (jsGetD schema "properties")) = false →
        (normalizeToolParameters schema).properties = [])
    ∧ (∀ schema : Json,
        (jsGetD schema "required" matches Json.arr _) = false →
        (normalizeToolParameters schema).required = [])
    ∧ (∀ schema : Json, jsTruthy schema = true →
        (jsTruthy (jsGetD schema "properties")
          && jsTypeofObject (jsGetD schema "properties")) = true →
        (normalizeToolParameters schema).properties
          = (jsObjFields (jsGetD schema "properties")).map
              fun kv => (kv.1, fixupProperty kv.1 kv.2))
    ∧ (∀ (k : String) (v : Json), jsTruthy (jsGetD v "type") = false →
        jsGetD (fixupProperty k v) "type" = Json.str "string")
    ∧ (∀ (schema : Json) (kv : String × Json),
        kv ∈ (normalizeToolParameters schema).properties →
        jsTruthy (jsGetD kv.2 "type") = true)
    ∧ normalizeToolParameters (Json.obj [("type", Json.str "object")])
        = ⟨"object", [], []⟩
    ∧ (∀ t : MCPTool,
        isNormalShape (transformMcpToolToAIFormat t).func.parameters = true)
    ∧ (∀ ct ∈ fallbackTools, isNormalShape ct.func.parameters = true)
    ∧ (∀ (s : CacheState) (fetched : Except String (List MCPTool)) (now : Nat)
         (ct : CachedTool), ct ∈ (syncTools s fetched now).1.tools →
        ct ∈ s.tools ∨ isNormalShape ct.func.parameters = true)
    ∧ (∀ (s : CacheState) (now : Nat) (ct : CachedTool),
        ct ∈ (loadFallbackTools s now).tools →
        isNormalShape ct.func.parameters = true) := by
  have hfb : ∀ ct ∈ fallbackTools, isNormalShape ct.func.parameters = true := by
    intro ct h
    fin_cases h <;> rfl
  refine ⟨normalize_schemaType, ?_, ?_, ?_,
          fixup_lacking_string, normalize_props_truthy, rfl, ?_, hfb, ?_, ?_⟩
  · intro schema h
    unfold normalizeToolParameters
    split
    · rfl
    · simp [h]
  · intro schema h
    unfold normalizeToolParameters
    split
    · rfl
    · cases hm : jsGetD schema "required" <;> simp_all
  · intro schema hs h
    unfold normalizeToolParameters
    rw [if_neg (by simp [hs])]
    simp [h]
  · intro t
    exact isNormalShape_normalize t.inputSchema
  · intro s fetched now ct h
    unfold syncTools at h
    by_cases hp : s.syncInProgress
    · rw [if_pos hp] at h
      exact Or.inl h
    · rw [if_neg hp] at h
      cases fetched with
      | ok ts =>
          simp only at h
          obtain ⟨t, ht, rfl⟩ := List.mem_map.mp h
          exact Or.inr (isNormalShape_normalize t.inputSchema)
      | error e => exact Or.inl h
  · intro s now ct h
    exact hfb ct h

/-- C2 witness: the spec's `list_devices` example schema and a property
    lacking a `type`. -/
theorem c2_schema_normalization_witness :
    (normalizeToolParameters (Json.obj [("type", Json.str "object")])).properties = []
    ∧ (normalizeToolParameters (Json.obj [("type", Json.str "object")])).required = []
    ∧ jsGetD (fixupProperty "limit"
        (Json.obj [("description", Json.str "page size")])) "type"
        = Json.str "string"
    ∧ (normalizeToolParameters (Json.obj
          [ ("type", Json.str "object"),
            ("properties", Json.obj
              [("limit", Json.obj [("description", Json.str "page size")])]) ])).properties
        = [("limit", fixupProperty "limit"
              (Json.obj [("description", Json.str "page size")]))]
    ∧ isNormalShape (transformMcpToolToAIFormat
        ⟨"list_devices", "List all network devices managed by Restorepoint",
          Json.obj [("type", Json.str "object")]⟩).func.parameters = true :=
  ⟨c2_schema_normalization.2.1 _ rfl,
   c2_schema_normalization.2.2.1 _ rfl,
   c2_schema_normalization.2.2.2.2.1 "limit" _ rfl,
   c2_schema_normalization.2.2.2.1 _ rfl rfl,
   c2_schema_normalization.2.2.2.2.2.2.2.1 _⟩

/-- C5: at most one catalog sync runs at a time.  With the in-flight flag
    set, `syncTools` (the single sync entry point), `syncToolsWithRetry`
    (hence `forceSync`) and the periodic `timerTick` are all no-ops; a
    `getToolsForAI` read never triggers a refresh while one is in flight;
    and a stale read returns the current (old) snapshot immediately rather
    than awaiting the refresh it triggers. -/
theorem c5_single_flight :
    (∀ (s : CacheState) (fetched : Except String (List MCPTool)) (now : Nat),
        s.syncInProgress = true → syncTools s fetched now = (s, false))
    ∧ (∀ (s : CacheState) (fetchAt : Nat → Except String (List MCPTool)) (t : Nat),
        s.syncInProgress = true → syncToolsWithRetry s fetchAt t = s)
    ∧ (∀ (s : CacheState) (fetched : Except String (List MCPTool)) (now : Nat),
        s.syncInProgress = true → timerTick s fetched now = s)
    ∧ (∀ (s : CacheState) (fetchAt : Nat → Except String (List MCPTool)) (t : Nat),
        s.isInitialized = true → (getToolsForAI s fetchAt t).snapshot = s.tools)
    ∧ (∀ (s : CacheState) (fetchAt : Nat → Except String (List MCPTool)) (t : Nat),
        s.isInitialized = true → s.syncInProgress = true →
        (getToolsForAI s fetchAt t).triggered = false
        ∧ (getToolsForAI s fetchAt t).state = s)
    ∧ (∀ (s : CacheState) (fetchAt : Nat → Except String (List MCPTool)) (t : Nat),
        s.isInitialized = true → (getToolsForAI s fetchAt t).triggered = true →
        s.syncInProgress = false) := by
  have h1 : ∀ (s : CacheState) (fetched : Except String (List MCPTool)) (now : Nat),
      s.syncInProgress = true → syncTools s fetched now = (s, false) := by
    intro s fetched now h
    unfold syncTools
    rw [if_pos h]
  refine ⟨h1, ?_, ?_, ?_, ?_, ?_⟩
  · intro s fetchAt t h
    unfold syncToolsWithRetry MAX_RETRY_ATTEMPTS
    rw [show (3 : Nat) = 2 + 1 from rfl]
    simp only [syncRetryAux, h1 s (fetchAt 1) t h]
    simp
  · intro s fetched now h
    unfold timerTick
    rw [if_pos h]
  · intro s fetchAt t h
    exact snapshot_of_initialized s fetchAt t h
  · intro s fetchAt t hinit hsync
    unfold getToolsForAI
    rw [hinit]
    simp [hsync]
  · intro s fetchAt t hinit htrig
    unfold getToolsForAI at htrig
    rw [hinit] at htrig
    simp only [if_true] at htrig
    by_cases hsync : s.syncInProgress
    · simp [hsync] at htrig
    · simpa using hsync

/-- C5 witness: an initialized cache with a sync already in flight. -/
theorem c5_single_flight_witness :
    syncTools ⟨[], none, true, true, true⟩ (.error "x") 7 = (⟨[], none, true, true, true⟩, false)
    ∧ syncToolsWithRetry ⟨[], none, true, true, true⟩ (fun _ => .error "x") 7
        = ⟨[], none, true, true, true⟩
    ∧ timerTick ⟨[], none, true, true, true⟩ (.ok []) 7 = ⟨[], none, true, true, true⟩
    ∧ (getToolsForAI ⟨[], none, true, true, true⟩ (fun _ => .error "x") 7).snapshot = []
    ∧ (getToolsForAI ⟨[], none, true, true, true⟩ (fun _ => .error "x") 7).triggered = false :=
  ⟨c5_single_flight.1 ⟨[], none, true, true, true⟩ (.error "x") 7 rfl,
   c5_single_flight.2.1 ⟨[], none, true, true, true⟩ (fun _ => .error "x") 7 rfl,
   c5_single_flight.2.2.1 ⟨[], none, true, true, true⟩ (.ok []) 7 rfl,
   c5_single_flight.2.2.2.1 ⟨[], none, true, true, true⟩ (fun _ => .error "x") 7 rfl,
   (c5_single_flight.2.2.2.2.1 ⟨[], none, true, true, true⟩ (fun _ => .error "x") 7 rfl rfl).1⟩

theorem snapshot_eq_lazy (s : CacheState)
    (fetchAt : Nat → Except String (List MCPTool)) (t : Nat) :
    (getToolsForAI s fetchAt t).snapshot
      = (if s.isInitialized then s else initService s fetchAt t).tools := by
  unfold getToolsForAI
  dsimp only
  split <;> (split <;> rfl)

theorem state_init_eq_lazy (s : CacheState)
    (fetchAt : Nat → Except String (List MCPTool)) (t : Nat) :
    (getToolsForAI s fetchAt t).state.isInitialized
      = (if s.isInitialized then s else initService s fetchAt t).isInitialized := by
  unfold getToolsForAI
  dsimp only
  split <;> (split <;> rfl)

/-- C6 counterexample: after `shutdown()`, a `getToolsForAI` call with the
    provider unreachable does NOT return the empty snapshot — it lazily
    re-initializes and returns the (non-empty) fallback catalog, refuting
    the claim that every post-shutdown read returns an empty snapshot
    until the caller re-initializes. -/
theorem c6_counterexample :
    (getToolsForAI (shutdown ⟨fallbackTools, some 0, true, false, true⟩)
        (fun _ => .error "ECONNREFUSED") 1000).snapshot = fallbackTools
    ∧ fallbackTools ≠ [] := by
  constructor
  · rfl
  · simp [fallbackTools]

/-- C6 (amended): `shutdown()` clears the snapshot (`tools = []`,
    `lastSync = null`), marks the service uninitialized and stops the
    timer — but the next `getToolsForAI` call re-initializes the cache
    itself (running sync-with-retry) and returns the resulting catalog:
    the fallback set when every fetch fails, or the freshly normalized
    provider list on success, not the empty snapshot. -/
theorem c6_amended (s : CacheState)
    (fetchAt : Nat → Except String (List MCPTool)) (t : Nat)
    (hsync : s.syncInProgress = false) :
    (shutdown s).tools = []
    ∧ (shutdown s).lastSync = none
    ∧ (shutdown s).isInitialized = false
    ∧ (shutdown s).timerRunning = false
    ∧ (getToolsForAI (shutdown s) fetchAt t).state.isInitialized = true
    ∧ (∀ e1 e2 e3, fetchAt 1 = .error e1 → fetchAt 2 = .error e2 →
        fetchAt 3 = .error e3 →
        (getToolsForAI (shutdown s) fetchAt t).snapshot = fallbackTools)
    ∧ (∀ ts, fetchAt 1 = .ok ts →
        (getToolsForAI (shutdown s) fetchAt t).snapshot
          = ts.map transformMcpToolToAIFormat) := by
  have hshut_init : (shutdown s).isInitialized = false := rfl
  have hshut_sync : (shutdown s).syncInProgress = false := hsync
  refine ⟨rfl, rfl, rfl, rfl, ?_, ?_, ?_⟩
  · rw [state_init_eq_lazy, hshut_init]
    simp only [Bool.false_eq_true, if_false]
    unfold initService
    rw [hshut_init]
    simp only [Bool.false_eq_true, if_false]
  · intro e1 e2 e3 h1 h2 h3
    rw [snapshot_eq_lazy, hshut_init]
    simp only [if_false, Bool.false_eq_true]
    unfold initService
    rw [hshut_init]
    simp only [if_false, Bool.false_eq_true]
    rw [syncRetry_all_fail (shutdown s) fetchAt t e1 e2 e3 hshut_sync h1 h2 h3]
  · intro ts h1
    rw [snapshot_eq_lazy, hshut_init]
    simp only [if_false, Bool.false_eq_true]
    unfold initService
    rw [hshut_init]
    simp only [if_false, Bool.false_eq_true]
    unfold syncToolsWithRetry MAX_RETRY_ATTEMPTS
    rw [show (3 : Nat) = 2 + 1 from rfl]
    simp only [syncRetryAux, syncTools, hshut_sync, h1]
    simp

/-- C6 witness: a healthy cache, shut down, then read with the provider
    unreachable. -/
theorem c6_amended_witness :
    (shutdown ⟨fallbackTools, some 0, true, false, true⟩).tools = []
    ∧ (getToolsForAI (shutdown ⟨fallbackTools, some 0, true, false, true⟩)
        (fun _ => .error "x") 5).state.isInitialized = true
    ∧ (getToolsForAI (shutdown ⟨fallbackTools, some 0, true, false, true⟩)
        (fun _ => .error "x") 5).snapshot = fallbackTools :=
  ⟨(c6_amended ⟨fallbackTools, some 0, true, false, true⟩ (fun _ => .error "x") 5 rfl).1,
   (c6_amended ⟨fallbackTools, some 0, true, false, true⟩ (fun _ => .error "x") 5 rfl).2.2.2.2.1,
   (c6_amended ⟨fallbackTools, some 0, true, false, true⟩ (fun _ => .error "x") 5 rfl).2.2.2.2.2.1
     "x" "x" "x" rfl rfl rfl⟩

/-- C9: `MCPService.executeTool` is total at its interface — its result
    type carries no failure component, a rejection of the awaited inner
    work is converted to `{success: false, error: {code:
    "EXECUTION_ERROR", ...}}`, a failed inner response stays a returned
    failure, and every failure path of the HTTP client (uninitialized
    client, unparseable arguments JSON, transport error) composes to the
    same returned `EXECUTION_ERROR` value — never a thrown error. -/
theorem c9_executeTool_total (tc : ToolCall) :
    (∀ e, mcpExecuteTool tc (.error e)
        = { success := false,
            error := some ⟨"EXECUTION_ERROR", jsOrStr e "Tool execution failed",
              some (Json.obj [("toolName", Json.str tc.func.name),
                              ("arguments", Json.str tc.func.arguments)])⟩ })
    ∧ (∀ r : MCPToolResponse, r.success = false →
        (mcpExecuteTool tc (.ok r)).success = false)
    ∧ (∀ (init : Bool) (parsed : Except String Json)
         (http : Except String MCPToolResponse) (nowIso : String),
        (init = false ∨ (∃ e, parsed = .error e) ∨ (∃ e, http = .error e)) →
        (mcpExecuteTool tc
          (.ok (mcpHttpExecuteTool tc init parsed http nowIso))).success = false
        ∧ ((mcpExecuteTool tc
            (.ok (mcpHttpExecuteTool tc init parsed http nowIso))).error.map
              fun er => er.code) = some "EXECUTION_ERROR") := by
  have herr : ∀ (nm e nowIso : String),
      (mcpExecuteTool tc (.ok (mcpHttpErrorResponse nm e nowIso))).success = false
      ∧ ((mcpExecuteTool tc (.ok (mcpHttpErrorResponse nm e nowIso))).error.map
          fun er => er.code) = some "EXECUTION_ERROR" := by
    intro nm e nowIso
    exact ⟨rfl, rfl⟩
  refine ⟨fun e => rfl, ?_, ?_⟩
  · intro r h
    simp [mcpExecuteTool, h]
  · intro init parsed http nowIso h
    rcases h with h | ⟨e, he⟩ | ⟨e, he⟩
    · subst h
      exact herr _ _ _
    · subst he
      cases init
      · exact herr _ _ _
      · exact herr _ _ _
    · subst he
      cases init
      · exact herr _ _ _
      · cases parsed with
        | error e' => exact herr _ _ _
        | ok j => exact herr _ _ _

/-- C9 witness: unparseable arguments JSON on an initialized client, and a
    rejected inner promise. -/
theorem c9_executeTool_total_witness :
    (mcpExecuteTool ⟨"id1", "function", ⟨"list_devices", "not json"⟩⟩
      (.ok (mcpHttpExecuteTool ⟨"id1", "function", ⟨"list_devices", "not json"⟩⟩
        true (.error "Unexpected token") (.ok { success := true }) "ts"))).success = false
    ∧ ((mcpExecuteTool ⟨"id1", "function", ⟨"list_devices", "not json"⟩⟩
      (.ok (mcpHttpExecuteTool ⟨"id1", "function", ⟨"list_devices", "not json"⟩⟩
        true (.error "Unexpected token") (.ok { success := true }) "ts"))).error.map
          fun er => er.code) = some "EXECUTION_ERROR"
    ∧ (mcpExecuteTool ⟨"id1", "function", ⟨"list_devices", "not json"⟩⟩
        (.error "boom")).success = false :=
  ⟨((c9_executeTool_total ⟨"id1", "function", ⟨"list_devices", "not json"⟩⟩).2.2
      true (.error "Unexpected token") (.ok { success := true }) "ts"
      (Or.inr (Or.inl ⟨"Unexpected token", rfl⟩))).1,
   ((c9_executeTool_total ⟨"id1", "function", ⟨"list_devices", "not json"⟩⟩).2.2
      true (.error "Unexpected token") (.ok { success := true }) "ts"
      (Or.inr (Or.inl ⟨"Unexpected token", rfl⟩))).2,
   congrArg McpResult.success
     ((c9_executeTool_total ⟨"id1", "function", ⟨"list_devices", "not json"⟩⟩).1 "boom")⟩

/-- C8: a message containing none of the fixed topical keywords
    (case-insensitive substring check) makes `processMessage` return the
    canned refusal with an empty `toolsUsed` list, with no resolver call,
    no model call and no tool-provider call, and without raising an
    exception. -/
theorem c8_offtopic_refusal (message : String)
    (listOutcome : Except String McpResult)
    (exec : ToolCall → Except String McpResult) (script : List ModelResponse)
    (h : ∀ kw ∈ restorepointKeywords, strIncludes (strToLower message) kw = false) :
    processMessage message listOutcome exec script
      = .ok { response := topicRefusalText, toolsUsed := [],
              executionResults := none, history := [], modelCalls := 0,
              phases := 0, resolverRan := false, resolverNetworkCalled := false } := by
  have hany : (restorepointKeywords.any fun kw => strIncludes (strToLower message) kw) = false := by
    rw [List.any_eq_false]
    intro kw hkw
    simp [h kw hkw]
  have hv : validateTopic message = ⟨false, some topicRefusalText⟩ := by
    unfold validateTopic
    rw [hany]
    rfl
  unfold processMessage
  rw [hv]
  rfl

/-- C8 witness: the keyword-free message `"hello"`; the provider and model
    parameters are failing stubs that can never be consulted. -/
theorem c8_offtopic_refusal_witness :
    processMessage "hello" (.error "x") (fun _ => .error "x") []
      = .ok { response := topicRefusalText, toolsUsed := [],
              executionResults := none, history := [], modelCalls := 0,
              phases := 0, resolverRan := false, resolverNetworkCalled := false } :=
  c8_offtopic_refusal "hello" (.error "x") (fun _ => .error "x") [] (by decide)

/-- C7: entity resolution never fails the request.  When the three
    extractors produce no candidates, `resolveDeviceIdentifiers` returns
    the empty match set and empty context without issuing the
    `list_devices` network call; a rejection of that call, an unrecognized
    response shape, or a throw inside the matching loops (a truthy
    non-string field, a truthy non-array `AssetFields`) is converted to
    the same empty result. -/
theorem c7_resolution_never_fails (message : String) :
    ((extractIPAddresses message = [] ∧ extractDeviceNames message = []
        ∧ extractKeywords message = []) →
      ∀ lo : Except String McpResult,
        resolveDeviceIdentifiers message lo = ⟨[], "", false⟩)
    ∧ (∀ e : String,
        (resolveDeviceIdentifiers message (.error e)).matchedDevices = []
        ∧ (resolveDeviceIdentifiers message (.error e)).deviceContext = "")
    ∧ (∀ r : McpResult, unwrapDeviceList r = none →
        (resolveDeviceIdentifiers message (.ok r)).matchedDevices = []
        ∧ (resolveDeviceIdentifiers message (.ok r)).deviceContext = "")
    ∧ (∀ (r : McpResult) (devices : List Json) (e : String),
        unwrapDeviceList r = some devices →
        matchDevices (extractIPAddresses message) (extractDeviceNames message)
          (extractKeywords message) devices = .error e →
        resolveDeviceIdentifiers message (.ok r) = ⟨[], "", true⟩) := by
  refine ⟨?_, ?_, ?_, ?_⟩
  · rintro ⟨h1, h2, h3⟩ lo
    unfold resolveDeviceIdentifiers
    rw [h1, h2, h3]
    rfl
  · intro e
    constructor <;>
      · unfold resolveDeviceIdentifiers
        dsimp only
        split <;> rfl
  · intro r h
    constructor <;>
      · unfold resolveDeviceIdentifiers
        dsimp only
        split
        · rfl
        · simp only [h]
  · intro r devices e hunwrap hmatch
    unfold resolveDeviceIdentifiers
    dsimp only
    by_cases hc : ((extractIPAddresses message).isEmpty
        && (extractDeviceNames message).isEmpty
        && (extractKeywords message).isEmpty) = true
    · obtain ⟨h12, h3⟩ := Bool.and_eq_true_iff.mp hc
      obtain ⟨h1, h2⟩ := Bool.and_eq_true_iff.mp h12
      rw [List.isEmpty_iff.mp h1, List.isEmpty_iff.mp h2,
          List.isEmpty_iff.mp h3] at hmatch
      rw [show matchDevices [] [] [] devices = .ok [] from rfl] at hmatch
      exact absurd hmatch (by simp)
    · rw [if_neg hc]
      simp only [hunwrap, hmatch]

/-- C7 witness: the identifier-free message `"hello"`, a rejected listing,
    an unrecognized (string-payload) listing shape, and a listing whose
    device has a truthy non-string `Address` (the matcher's `.includes`
    throws). -/
theorem c7_resolution_never_fails_witness :
    resolveDeviceIdentifiers "hello" (.error "boom") = ⟨[], "", false⟩
    ∧ resolveDeviceIdentifiers "hello"
        (.ok { success := true, data := some (Json.str "odd") }) = ⟨[], "", false⟩
    ∧ (resolveDeviceIdentifiers "list my cisco devices" (.error "boom")).matchedDevices = []
    ∧ resolveDeviceIdentifiers "check 10.0.0.1"
        (.ok { success := true,
               data := some (Json.arr [Json.obj [("Address", Json.num 5)]]) })
      = ⟨[], "", true⟩ :=
  ⟨(c7_resolution_never_fails "hello").1 ⟨rfl, rfl, rfl⟩ (.error "boom"),
   (c7_resolution_never_fails "hello").1 ⟨rfl, rfl, rfl⟩
     (.ok { success := true, data := some (Json.str "odd") }),
   ((c7_resolution_never_fails "list my cisco devices").2.1 "boom").1,
   (c7_resolution_never_fails "check 10.0.0.1").2.2.2
     { success := true,
       data := some (Json.arr [Json.obj [("Address", Json.num 5)]]) }
     [Json.obj [("Address", Json.num 5)]] "TypeError: not a string" rfl rfl⟩

theorem chatLoop_phases (exec : ToolCall → Except String McpResult)
    (firstContent : String) (rnet : Bool) (front : List ModelResponse)
    (last : ModelResponse)
    (hfront : ∀ r ∈ front, r.tool_calls ≠ [])
    (hlast : last.tool_calls = []) :
    ∀ (hist : List Turn) (used : List String) (entries : List ExecEntry)
      (mc ph : Nat),
    ∃ out, chatLoop exec firstContent rnet (front ++ [last]) hist used entries mc ph
        = .ok out
      ∧ out.modelCalls = mc + front.length + 1
      ∧ out.phases = ph + front.length
      ∧ out.response = jsOrStr last.content firstContent := by
  induction front with
  | nil =>
      intro hist used entries mc ph
      refine ⟨{ response := jsOrStr last.content firstContent, toolsUsed := used,
                executionResults := some entries,
                history := hist ++ [Turn.assistant last.content last.tool_calls],
                modelCalls := mc + 1, phases := ph,
                resolverRan := true, resolverNetworkCalled := rnet },
              ?_, by simp, by simp, rfl⟩
      simp [chatLoop, hlast]
  | cons r front' ih =>
      intro hist used entries mc ph
      have hre : r.tool_calls.isEmpty = false := by
        have := hfront r (by simp)
        simpa [List.isEmpty_iff] using this
      obtain ⟨out, hout, hmc, hph, hresp⟩ :=
        ih (fun x hx => hfront x (by simp [hx]))
          ((hist ++ [Turn.assistant r.content r.tool_calls])
            ++ (executeCalls exec r.tool_calls).2.1)
          (used ++ (executeCalls exec r.tool_calls).2.2)
          (entries ++ (executeCalls exec r.tool_calls).1)
          (mc + 1) (ph + 1)
      refine ⟨out, ?_, by rw [hmc]; simp; omega, by rw [hph]; simp; omega, hresp⟩
      rw [List.cons_append]
      unfold chatLoop
      rw [hre]
      simpa using hout

/-- C4: the round loop of `processMessage` terminates exactly when a model
    response carries no tool calls.  With a valid message, a script of `n`
    responses each carrying at least one tool call followed by one
    without, the request succeeds with exactly `n` execution phases and
    `n + 1` model calls; when the very first response has no tool calls,
    no execution phase runs, a single model call is made and its text is
    the final answer. -/
theorem c4_round_loop_termination (message : String)
    (lo : Except String McpResult) (exec : ToolCall → Except String McpResult)
    (front : List ModelResponse) (last : ModelResponse)
    (hvalid : (validateTopic message).isValid = true)
    (hfront : ∀ r ∈ front, r.tool_calls ≠ [])
    (hlast : last.tool_calls = []) :
    ∃ out, processMessage message lo exec (front ++ [last]) = .ok out
      ∧ out.phases = front.length
      ∧ out.modelCalls = front.length + 1
      ∧ (front = [] → out.response = last.content ∧ out.toolsUsed = []
          ∧ out.executionResults = some []) := by
  unfold processMessage
  dsimp only
  have hneg : (!(validateTopic message).isValid) = false := by simp [hvalid]
  rw [hneg]
  simp only [Bool.false_eq_true, if_false]
  cases front with
  | nil =>
      simp only [List.nil_append]
      rw [hlast]
      refine ⟨_, rfl, rfl, rfl, fun _ => ⟨rfl, rfl, rfl⟩⟩
  | cons r front' =>
      have hre : r.tool_calls.isEmpty = false := by
        have := hfront r (by simp)
        simpa [List.isEmpty_iff] using this
      obtain ⟨out, hout, hmc, hph, hresp⟩ :=
        chatLoop_phases exec r.content
          (resolveDeviceIdentifiers message lo).networkCalled front' last
          (fun x hx => hfront x (by simp [hx])) hlast
          ([Turn.user message, Turn.assistant r.content r.tool_calls]
            ++ (executeCalls exec r.tool_calls).2.1)
          (executeCalls exec r.tool_calls).2.2
          (executeCalls exec r.tool_calls).1 1 1
      rw [List.cons_append]
      dsimp only
      rw [hre]
      refine ⟨out, ?_, by rw [hph]; simp; omega, by rw [hmc]; simp; omega,
        fun hc => by simp at hc⟩
      simpa using hout

/-- C4 witness: one tool-calling response followed by a plain response
    (one execution phase, two model calls), using a valid message. -/
theorem c4_round_loop_termination_witness :
    ∃ out, processMessage "list devices" (.error "x")
        (fun _ => .ok { success := true })
        ([⟨"calling", [⟨"1", "function", ⟨"list_devices", "\x7b\x7d"⟩⟩]⟩]
          ++ [⟨"done", []⟩])
      = .ok out
      ∧ out.phases = 1
      ∧ out.modelCalls = 2
      ∧ ([(⟨"calling", [⟨"1", "function", ⟨"list_devices", "\x7b\x7d"⟩⟩]⟩ : ModelResponse)] = []
          → out.response = "done" ∧ out.toolsUsed = []
            ∧ out.executionResults = some []) :=
  c4_round_loop_termination "list devices" (.error "x")
    (fun _ => .ok { success := true })
    [⟨"calling", [⟨"1", "function", ⟨"list_devices", "\x7b\x7d"⟩⟩]⟩] ⟨"done", []⟩
    rfl
    (fun r hr => by
      rw [List.mem_singleton] at hr
      subst hr
      exact List.cons_ne_nil _ _)
    rfl

/-- C3 counterexample: a round of 3 tool calls whose 2nd call's execution
    fails.  `mcpService.executeTool` never rejects — it returns the
    failure as an `McpResult` with `success = false` — so the
    `executionResults` entry for the failed 2nd call is marked
    `success = true` (wrapping the failed result), refuting the claim that
    it is marked `success = false`. -/
theorem c3_counterexample :
    ((executeCalls
        (fun tc => .ok (mcpExecuteTool tc
          (if tc.id == "2" then .error "Network Error"
           else .ok { success := true, data := some (Json.str "ok") })))
        [⟨"1", "function", ⟨"tool1", "\x7b\x7d"⟩⟩,
         ⟨"2", "function", ⟨"tool2", "\x7b\x7d"⟩⟩,
         ⟨"3", "function", ⟨"tool3", "\x7b\x7d"⟩⟩]).1.map
          fun en => (en.toolName, en.success))
      = [("tool1", true), ("tool2", true), ("tool3", true)]
    ∧ (mcpExecuteTool ⟨"2", "function", ⟨"tool2", "\x7b\x7d"⟩⟩
        (.error "Network Error")).success = false :=
  ⟨rfl, rfl⟩

/-- C3 (amended): tool calls within one round are isolated — with 3
    requested calls whose 2nd call's execution fails, calls 1 and 3 still
    execute, `executionResults` has 3 entries in call order, every tool
    name is recorded, and a tool turn carrying the structured failure
    (`success: false` plus its error object) is appended; but the failed
    call's own entry is marked `success = true` with the failure inside
    its `result` field, because `executeTool` returns failures as values.
    An entry is marked `success = false` (with the error message recorded
    and an `{error}` tool turn appended) only when the `executeTool`
    promise rejects. -/
theorem c3_amended (exec : ToolCall → Except String McpResult)
    (c1 c2 c3 : ToolCall) (r1 r2 r3 : McpResult)
    (h1 : exec c1 = .ok r1) (h2 : exec c2 = .ok r2) (h3 : exec c3 = .ok r3)
    (hfail : r2.success = false) :
    (executeCalls exec [c1, c2, c3]).1
      = [⟨c1.func.name, true, some r1, none⟩,
         ⟨c2.func.name, true, some r2, none⟩,
         ⟨c3.func.name, true, some r3, none⟩]
    ∧ (executeCalls exec [c1, c2, c3]).2.1
      = [Turn.tool c1.id (mcpResultToJson r1),
         Turn.tool c2.id (mcpResultToJson r2),
         Turn.tool c3.id (mcpResultToJson r3)]
    ∧ (executeCalls exec [c1, c2, c3]).2.2
      = [c1.func.name, c2.func.name, c3.func.name]
    ∧ jsGet (mcpResultToJson r2) "success" = some (Json.bool false)
    ∧ (∀ (exec' : ToolCall → Except String McpResult) (c : ToolCall) (e : String),
        exec' c = .error e →
        (executeCalls exec' [c]).1 = [⟨c.func.name, false, none, some e⟩]
        ∧ (executeCalls exec' [c]).2.1
            = [Turn.tool c.id (Json.obj [("error", Json.str e)])]) := by
  refine ⟨?_, ?_, ?_, ?_, ?_⟩
  · simp [executeCalls, h1, h2, h3]
  · simp [executeCalls, h1, h2, h3]
  · simp [executeCalls, h1, h2, h3]
  · simp [mcpResultToJson, jsGet, jsObjFields, hfail, List.find?]
  · intro exec' c e he
    constructor <;> simp [executeCalls, he]

/-- C3 witness: concrete calls where the 2nd returns a failed result and,
    separately, a call whose promise rejects. -/
theorem c3_amended_witness :
    (executeCalls
        (fun tc => if tc.id == "2"
          then .ok { success := false,
                     error := some ⟨"EXECUTION_ERROR", "Network Error", none⟩ }
          else .ok { success := true })
        [⟨"1", "function", ⟨"tool1", "\x7b\x7d"⟩⟩,
         ⟨"2", "function", ⟨"tool2", "\x7b\x7d"⟩⟩,
         ⟨"3", "function", ⟨"tool3", "\x7b\x7d"⟩⟩]).1
      = [⟨"tool1", true, some { success := true }, none⟩,
         ⟨"tool2", true,
           some { success := false,
                  error := some ⟨"EXECUTION_ERROR", "Network Error", none⟩ },
           none⟩,
         ⟨"tool3", true, some { success := true }, none⟩]
    ∧ jsGet (mcpResultToJson
        { success := false,
          error := some ⟨"EXECUTION_ERROR", "Network Error", none⟩ }) "success"
      = some (Json.bool false)
    ∧ (executeCalls (fun _ => .error "boom")
        [⟨"9", "function", ⟨"tool9", "\x7b\x7d"⟩⟩]).1
      = [⟨"tool9", false, none, some "boom"⟩] :=
  ⟨(c3_amended
      (fun tc => if tc.id == "2"
        then .ok { success := false,
                   error := some ⟨"EXECUTION_ERROR", "Network Error", none⟩ }
        else .ok { success := true })
      ⟨"1", "function", ⟨"tool1", "\x7b\x7d"⟩⟩
      ⟨"2", "function", ⟨"tool2", "\x7b\x7d"⟩⟩
      ⟨"3", "function", ⟨"tool3", "\x7b\x7d"⟩⟩
      { success := true }
      { success := false, error := some ⟨"EXECUTION_ERROR", "Network Error", none⟩ }
      { success := true }
      rfl rfl rfl rfl).1,
   (c3_amended
      (fun tc => if tc.id == "2"
        then .ok { success := false,
                   error := some ⟨"EXECUTION_ERROR", "Network Error", none⟩ }
        else .ok { success := true })
      ⟨"1", "function", ⟨"tool1", "\x7b\x7d"⟩⟩
      ⟨"2", "function", ⟨"tool2", "\x7b\x7d"⟩⟩
      ⟨"3", "function", ⟨"tool3", "\x7b\x7d"⟩⟩
      { success := true }
      { success := false, error := some ⟨"EXECUTION_ERROR", "Network Error", none⟩ }
      { success := true }
      rfl rfl rfl rfl).2.2.2.1,
   ((c3_amended
      (fun tc => if tc.id == "2"
        then .ok { success := false,
                   error := some ⟨"EXECUTION_ERROR", "Network Error", none⟩ }
        else .ok { success := true })
      ⟨"1", "function", ⟨"tool1", "\x7b\x7d"⟩⟩
      ⟨"2", "function", ⟨"tool2", "\x7b\x7d"⟩⟩
      ⟨"3", "function", ⟨"tool3", "\x7b\x7d"⟩⟩
      { success := true }
      { success := false, error := some ⟨"EXECUTION_ERROR", "Network Error", none⟩ }
      { success := true }
      rfl rfl rfl rfl).2.2.2.2
      (fun _ => .error "boom") ⟨"9", "function", ⟨"tool9", "\x7b\x7d"⟩⟩ "boom" rfl).1⟩
